import Mathlib

/-
Verification of the OpenRGB-to-Hue Entertainment bridge
(`src/OpenRGB-To-HUE.py`) against its natural-language specification.

The Python source is shallowly embedded below:
* pure helpers become Lean functions;
* DMX channel bytes are `Fin 256` (a DMX byte is 0..255);
* the normalized color components produced by `byte / 255.0` are modelled
  exactly as rationals (`ℚ`), i.e. division is exact rational division;
* fallible calls (HTTP requests, the streaming library) are modelled as
  `Except String` values supplied as explicit parameters, so a `try/except`
  block becomes a `match` on that parameter;
* Python truthiness of optional strings (`None` and `""` are falsy) is made
  explicit through `truthy` and `pyOr` below.
-/

/-- Python truthiness of an optional string: `None` and the empty string are
falsy, every other string is truthy. -/
def truthy : Option String → Bool
  | none => false
  | some s => s ≠ ""

/-- Python `a or b` on optional strings: returns `a` when `a` is truthy,
otherwise returns `b` (even when `b` is falsy as well). -/
def pyOr (a b : Option String) : Option String :=
  if truthy a then a else b

/-- Python `str.lower()`: lowercase every character.  (The strings the
source lowercases are ASCII area ids, area names and bridge error
messages, for which per-character lowercasing is exact.) -/
def pyLower (s : String) : String := ⟨s.data.map Char.toLower⟩

/-- Whether `pat` is a leading run of `s` (on character lists). -/
def isPre : List Char → List Char → Bool
  | [], _ => true
  | _ :: _, [] => false
  | c :: cs, d :: ds => c == d && isPre cs ds

/-- Whether `pat` occurs contiguously anywhere in `s`. -/
def subOccurs (pat : List Char) : List Char → Bool
  | [] => isPre pat []
  | s@(_ :: rest) => isPre pat s || subOccurs pat rest

/-- Python `pat in s` on strings: contiguous substring containment. -/
def strContains (s pat : String) : Bool := subOccurs pat.data s.data

/- ------------------------------------------------------------------ -/
/- Translator: `HueEntertainmentBridge._on_dmx_data`, lines 405-420.   -/
/- ------------------------------------------------------------------ -/

/-- One call `self.streaming.set_input((r / 255.0, g / 255.0, b / 255.0, idx))`
(line 417 of the source): three normalized components plus the light index. -/
structure ColorUpdate where
  r : ℚ
  g : ℚ
  b : ℚ
  idx : Nat
deriving Repr, DecidableEq

/-- The update built for light slot `idx` from the frame `dmx`
(source lines 411-417): each component is the channel byte at offset
`idx * 3 + c` divided by 255.0.  The `getD` default is irrelevant: the
translator only builds this value when the three bytes exist. -/
def expectedUpdate (dmx : List (Fin 256)) (idx : Nat) : ColorUpdate :=
  { r := ((dmx.getD (idx * 3 + 0) 0).val : ℚ) / 255
    g := ((dmx.getD (idx * 3 + 1) 0).val : ℚ) / 255
    b := ((dmx.getD (idx * 3 + 2) 0).val : ℚ) / 255
    idx := idx }

/-- The per-frame loop of `_on_dmx_data` (source lines 407-417):
`for idx in range(self.num_lights): if len(dmx) >= idx * 3 + 3: set_input(...)`.
The resulting list is in loop order, i.e. the order in which the updates are
pushed to the streaming session within one frame. -/
def translateFrame (dmx : List (Fin 256)) (num_lights : Nat) : List ColorUpdate :=
  (List.range num_lights).filterMap fun idx =>
    if idx * 3 + 3 ≤ dmx.length then some (expectedUpdate dmx idx) else none

/-- A six-byte demonstration frame: full red on light 0, full green on
light 1 (spec section 8, property 7). -/
def demoFullFrame : List (Fin 256) := [255, 0, 0, 0, 255, 0]

/-- A five-byte demonstration frame: light 1 is missing the last byte of
its three-channel block. -/
def demoShortFrame : List (Fin 256) := [255, 0, 0, 0, 255]

/- ------------------------------------------------------------------ -/
/- Area resolution: `HueEntertainmentBridge.__init__`, lines 314-333,  -/
/- and the listing branch of `main`, lines 589-626.                    -/
/- ------------------------------------------------------------------ -/

/-- One entertainment configuration as the core needs it: its display name
and the number of channel slots (`len(config.channels)` in the source). -/
structure AreaConfig where
  name : String
  channels : Nat
deriving Repr, DecidableEq

/-- The single failure the selection loop can produce: line 333 raises
`ValueError("Entertainment area '<requested>' not found")`, whose message
depends only on the requested string. -/
inductive ResolveError where
  | notFound (requested : String)
deriving Repr, DecidableEq

/-- The selection loop of `HueEntertainmentBridge.__init__` (lines 319-333)
over the catalog `entertainment_configs.items()`, an association list keyed
by area id (the source comment on line 321 says it tries the id first).
Both `if` branches of the source compare `area_id.lower()` with
`entertainment_area_name.lower()`; the duplicated second branch is kept
as written.  On a hit the method records the config plus the area name it
displays; falling off the end raises the not-found `ValueError`. -/
def resolveArea (configs : List (String × AreaConfig))
    (entertainment_area_name : String) : Except ResolveError (AreaConfig × String) :=
  match configs with
  | [] => .error (.notFound entertainment_area_name)
  | (area_id, config) :: rest =>
    if pyLower area_id = pyLower entertainment_area_name then
      .ok (config, entertainment_area_name)
    else if pyLower area_id = pyLower entertainment_area_name then
      .ok (config, area_id)
    else resolveArea rest entertainment_area_name

/-- Exit code of the listing branch of `main` (lines 589-626): with an
empty catalog it prints "No entertainment areas found!" and returns 6
(lines 604-610); otherwise it prints the areas and returns 0. -/
def listAreasExit (configs : List (String × AreaConfig)) : Nat :=
  if configs.isEmpty then 6 else 0

/-- A sample catalog entry whose display name is "Living Room" but whose
stable identifier is an opaque id, as the Hue API issues them. -/
def livingRoomEntry : String × AreaConfig :=
  ("abc-123", { name := "Living Room", channels := 2 })

/-- A second sample entry named "Office". -/
def officeEntry : String × AreaConfig :=
  ("office-1", { name := "Office", channels := 1 })

/- ------------------------------------------------------------------ -/
/- Pairing: `create_entertainment_user`, lines 127-199.                -/
/- ------------------------------------------------------------------ -/

/-- What one pairing attempt (one POST to `/api`) yields, as the loop body
distinguishes the cases: a success payload carrying the optional
`username` and `clientkey` fields, an error payload with its description
string, a `requests` exception with its message, or a response that is not
a non-empty list (which the loop silently ignores). -/
inductive PairAttempt where
  | success (username clientkey : Option String)
  | error (description : String)
  | requestException (msg : String)
  | malformed
deriving Repr, DecidableEq

/-- The loop state of `create_entertainment_user`: the current wall-clock
time, the `last_err` variable, and the list of error descriptions printed
per attempt (line 181). -/
structure PairState where
  t : Nat
  lastErr : Option String
  printed : List String
deriving Repr, DecidableEq

/-- The outcome of `create_entertainment_user`: either the credential pair
returned on line 173, or the `RuntimeError` raised on line 199 after the
timeout banner (which prints `last_err` when it is set). -/
inductive PairOutcome where
  | success (username clientkey : String) (st : PairState)
  | timeoutError (st : PairState)
deriving Repr, DecidableEq

/-- The lowercase needle of the line-180 check
`"link button not pressed" not in error_desc.lower()`. -/
def buttonNotPressedMsg : String := "link button not pressed"

/-- How one non-returning attempt updates the loop state (lines 175-184):
an error payload always records its description in `last_err` and is
printed per attempt only when it does not mention the link button; a
request exception records its message; a success payload without both
truthy fields and a malformed response change nothing. -/
def processAttempt (st : PairState) : PairAttempt → PairState
  | .error desc =>
    { st with
      lastErr := some desc
      printed :=
        if strContains (pyLower desc) buttonNotPressedMsg then st.printed
        else st.printed ++ [desc] }
  | .requestException msg => { st with lastErr := some msg }
  | .success _ _ => st
  | .malformed => st

/-- The `while time.time() < deadline` loop of `create_entertainment_user`
(lines 151-189).  `responses k` is what attempt `k` yields, `reqTime k` is
how long the HTTP round-trip of attempt `k` takes; every iteration then
sleeps 2 seconds (line 189) before re-checking the deadline.  The loop
returns the credential pair only when both fields are truthy (line 165).
The structural `fuel` argument is only a recursion bound: because each
iteration advances time by at least 2, any fuel with
`deadline ≤ st.t + 2 * fuel` gives the exact loop semantics
(`pairLoop_fuel_stable` below). -/
def pairLoop (responses : Nat → PairAttempt) (reqTime : Nat → Nat)
    (deadline : Nat) : Nat → Nat → PairState → PairOutcome
  | 0, _, st => .timeoutError st
  | fuel + 1, k, st =>
    if st.t < deadline then
      match responses k with
      | .success (some username) (some clientkey) =>
        if username ≠ "" ∧ clientkey ≠ "" then
          .success username clientkey { st with t := st.t + reqTime k }
        else
          pairLoop responses reqTime deadline fuel (k + 1)
            (processAttempt { st with t := st.t + reqTime k + 2 }
              (.success (some username) (some clientkey)))
      | a =>
        pairLoop responses reqTime deadline fuel (k + 1)
          (processAttempt { st with t := st.t + reqTime k + 2 } a)
    else .timeoutError st

/-- `create_entertainment_user` (lines 127-199): the deadline is fixed at
30 seconds after entry (line 147), `last_err` starts as `None` (line 148),
and nothing has been printed per attempt yet.  The fuel 30 satisfies
`deadline ≤ start + 2 * 30`, so it never cuts the loop short. -/
def create_entertainment_user (responses : Nat → PairAttempt)
    (reqTime : Nat → Nat) (start : Nat) : PairOutcome :=
  pairLoop responses reqTime (start + 30) 30 0
    { t := start, lastErr := none, printed := [] }

/-- Whether the run ended in the line-199 `RuntimeError`. -/
def isTimeoutOutcome : PairOutcome → Bool
  | .timeoutError _ => true
  | .success _ _ _ => false

/-- The wall-clock time at which the run ended. -/
def outcomeTime : PairOutcome → Nat
  | .timeoutError st => st.t
  | .success _ _ st => st.t

/-- The per-attempt printed error descriptions of the final state. -/
def printedOf : PairOutcome → List String
  | .timeoutError st => st.printed
  | .success _ _ st => st.printed

/-- The error the timeout banner reports: lines 194-195 print
`Last error: {last_err}` exactly when `last_err` is truthy.  A successful
run prints no last error. -/
def reportedLastError : PairOutcome → Option String
  | .timeoutError st =>
    match st.lastErr with
    | some e => if e ≠ "" then some e else none
    | none => none
  | .success _ _ _ => none

/-- A Bool version of the line-180 needle test, for stating that printed
errors never mention the link button. -/
def notButtonMsg (e : String) : Bool :=
  ! strContains (pyLower e) buttonNotPressedMsg

/-- A bridge that answers the first attempt with a distinct rejection and
every later attempt with the expected button-not-pressed error. -/
def cexResponses (k : Nat) : PairAttempt :=
  if k = 0 then .error "unauthorized user" else .error "link button not pressed"

/- ------------------------------------------------------------------ -/
/- Credential resolution: `ensure_app_key`, lines 202-235.             -/
/- ------------------------------------------------------------------ -/

/-- The fields of the persisted configuration dict that
`ensure_app_key` reads or writes. -/
structure Config where
  app_key : Option String
  clientkey : Option String
  bridge_ip : Option String := none
  updated_at : Option String := none
deriving Repr, DecidableEq

/-- The exceptions `ensure_app_key` can raise: the `RuntimeError` of a
failed forced pairing propagates from `create_entertainment_user`
(line 199), and lines 230 and 235 raise the missing-clientkey and
no-credentials `RuntimeError`s. -/
inductive EnsureError where
  | pairingFailed (lastErr : Option String)
  | missingClientkey
  | noCredentials
deriving Repr, DecidableEq

/-- `ensure_app_key` (lines 202-235).  The pairing collaborator is passed
in as the outcome `pairResult` that `create_entertainment_user` would
produce if called; the second component of the result counts how many
times that call actually happens (the source calls it exactly once on the
force-repair path, line 211, and never otherwise).  `now` stands for
`datetime.utcnow().isoformat() + "Z"`. -/
def ensure_app_key (pairResult : PairOutcome) (now : String)
    (app_key : Option String) (cfg : Config) (force_repair : Bool) :
    Except EnsureError (String × String × Config) × Nat :=
  if force_repair then
    match pairResult with
    | .success username clientkey _ =>
      (.ok (username, clientkey,
        { cfg with
          app_key := some username
          clientkey := some clientkey
          updated_at := some now }), 1)
    | .timeoutError st => (.error (.pairingFailed st.lastErr), 1)
  else
    let username := pyOr app_key cfg.app_key
    let clientkey := cfg.clientkey
    if truthy username ∧ truthy clientkey then
      (.ok (username.getD "", clientkey.getD "", cfg), 0)
    else if truthy username ∧ ¬ truthy clientkey then
      (.error .missingClientkey, 0)
    else
      (.error .noCredentials, 0)

/- ------------------------------------------------------------------ -/
/- Bridge info: `get_bridge_info`, lines 250-275.                      -/
/- ------------------------------------------------------------------ -/

/-- The fields of one element of the `/clip/v2/resource/bridge` `data`
array that `get_bridge_info` reads: `id`, `owner.rid`, `metadata.name`
(each possibly absent). -/
structure BridgeData where
  id : Option String
  owner_rid : Option String
  metadata_name : Option String
deriving Repr, DecidableEq

/-- The record `get_bridge_info` returns. -/
structure BridgeInfo where
  id : Option String
  rid : Option String
  name : String
  swversion : Nat
  hue_app_id : Option String
deriving Repr, DecidableEq

/-- `get_bridge_info` (lines 250-275).  The query parameter is the outcome
of `hue_get(...)/["data"]`: an exception, a response without a (non-empty)
`data` list, or the list itself.  The success path builds the record of
lines 258-264 (`rid` is `owner.rid or id`, the name defaults to
"Hue Bridge", `swversion` is the literal constant 1962097030); every other
path falls through to the fixed fallback record of lines 269-275, after
logging a warning. -/
def get_bridge_info (query : Except String (Option (List BridgeData))) :
    BridgeInfo :=
  match query with
  | .ok (some (bridge_data :: _)) =>
    { id := bridge_data.id
      rid := pyOr bridge_data.owner_rid bridge_data.id
      name := bridge_data.metadata_name.getD "Hue Bridge"
      swversion := 1962097030
      hue_app_id := bridge_data.id }
  | _ =>
    { id := some "default-bridge-id"
      rid := some "default-bridge-rid"
      name := "Hue Bridge"
      swversion := 1962097030
      hue_app_id := some "default-app-id" }

/- ------------------------------------------------------------------ -/
/- Session teardown: `HueEntertainmentBridge.stop_streaming`,          -/
/- lines 437-444.                                                      -/
/- ------------------------------------------------------------------ -/

/-- What `stop_streaming` logs on the way out: the success message of
line 442 or the error message of line 444. -/
inductive StopLog where
  | stopped
  | errorLogged (msg : String)
deriving Repr, DecidableEq

/-- `stop_streaming` (lines 437-444): the underlying
`self.streaming.stop_stream()` call either returns or raises, and the
method's `try/except Exception` converts either case into a normal return
(`Except.ok`), logging the failure instead of re-raising it. -/
def stop_streaming (stop_stream_result : Except String Unit) :
    Except String StopLog :=
  match stop_stream_result with
  | .ok _ => .ok .stopped
  | .error e => .ok (.errorLogged ("Error stopping streaming: " ++ e))

/- ------------------------------------------------------------------ -/
/- Theorems about the translator.                                      -/
/- ------------------------------------------------------------------ -/

theorem filterMap_eq_map_of_forall {α β : Type} (l : List α) (f : α → Option β)
    (g : α → β) (h : ∀ a ∈ l, f a = some (g a)) : l.filterMap f = l.map g := by
  induction l with
  | nil => rfl
  | cons x xs ih =>
    rw [List.filterMap_cons, h x (List.mem_cons_self x xs), List.map_cons,
      ih fun a ha => h a (List.mem_cons_of_mem x ha)]

theorem byte_div_bounds (v : Fin 256) :
    0 ≤ (v.val : ℚ) / 255 ∧ (v.val : ℚ) / 255 ≤ 1 := by
  constructor
  · positivity
  · rw [div_le_one (by norm_num)]
    exact_mod_cast Nat.le_of_lt_succ v.isLt

theorem mem_translate (dmx : List (Fin 256)) (n : Nat) (u : ColorUpdate) :
    u ∈ translateFrame dmx n ↔
      u.idx < n ∧ u.idx * 3 + 3 ≤ dmx.length ∧ u = expectedUpdate dmx u.idx := by
  unfold translateFrame
  rw [List.mem_filterMap]
  constructor
  · rintro ⟨a, ha, hfa⟩
    rw [List.mem_range] at ha
    by_cases hc : a * 3 + 3 ≤ dmx.length
    · rw [if_pos hc, Option.some.injEq] at hfa
      have hidx : u.idx = a := by rw [← hfa]; rfl
      subst hidx
      exact ⟨ha, hc, hfa.symm⟩
    · rw [if_neg hc] at hfa
      exact absurd hfa (by simp)
  · rintro ⟨h1, h2, h3⟩
    exact ⟨u.idx, List.mem_range.mpr h1, by rw [if_pos h2, h3]; rfl⟩

/-- C2: for every frame whose channel-data byte length equals
`lightCount * 3`, translating the frame produces exactly `lightCount`
ColorUpdates, one per light index `0 .. lightCount - 1`, pushed to the
session in ascending light-index order (the list order is the push order),
and each of the three components of each update equals the corresponding
channel byte divided by 255.0 and lies in `[0.0, 1.0]`. -/
theorem translate_full_frame (dmx : List (Fin 256)) (n : Nat)
    (h : dmx.length = n * 3) :
    translateFrame dmx n = (List.range n).map (expectedUpdate dmx) ∧
    (translateFrame dmx n).map ColorUpdate.idx = List.range n ∧
    (translateFrame dmx n).length = n ∧
    (translateFrame dmx n).all
      (fun u => decide (0 ≤ u.r ∧ u.r ≤ 1 ∧ 0 ≤ u.g ∧ u.g ≤ 1 ∧
        0 ≤ u.b ∧ u.b ≤ 1)) = true := by
  have hmap : translateFrame dmx n = (List.range n).map (expectedUpdate dmx) := by
    unfold translateFrame
    apply filterMap_eq_map_of_forall
    intro a ha
    rw [List.mem_range] at ha
    rw [if_pos (show a * 3 + 3 ≤ dmx.length by omega)]
  refine ⟨hmap, ?_, ?_, ?_⟩
  · rw [hmap, List.map_map]
    have hid : (ColorUpdate.idx ∘ expectedUpdate dmx) = id := rfl
    rw [hid, List.map_id]
  · rw [hmap, List.length_map, List.length_range]
  · rw [List.all_eq_true]
    intro u hu
    rw [hmap, List.mem_map] at hu
    obtain ⟨a, ha, rfl⟩ := hu
    have hr := byte_div_bounds (dmx.getD (a * 3 + 0) 0)
    have hg := byte_div_bounds (dmx.getD (a * 3 + 1) 0)
    have hb := byte_div_bounds (dmx.getD (a * 3 + 2) 0)
    exact decide_eq_true ⟨hr.1, hr.2, hg.1, hg.2, hb.1, hb.2⟩

/-- Witness for C2 at the concrete frame `[255,0,0, 0,255,0]` with two
configured lights. -/
theorem translate_full_frame_witness :
    translateFrame demoFullFrame 2 = (List.range 2).map (expectedUpdate demoFullFrame) ∧
    (translateFrame demoFullFrame 2).map ColorUpdate.idx = List.range 2 ∧
    (translateFrame demoFullFrame 2).length = 2 ∧
    (translateFrame demoFullFrame 2).all
      (fun u => decide (0 ≤ u.r ∧ u.r ≤ 1 ∧ 0 ≤ u.g ∧ u.g ≤ 1 ∧
        0 ≤ u.b ∧ u.b ≤ 1)) = true :=
  translate_full_frame demoFullFrame 2 (by rfl)

/-- C3: for every frame and light index `i < lightCount`, an update for
slot `i` is produced if and only if the frame holds at least `i*3+3`
bytes; slots whose three-byte block is incomplete are skipped (the
translator is a total function, so no error is raised), covered slots
still receive their update, and the number of updates never exceeds the
configured slot count. -/
theorem translate_short_frame (dmx : List (Fin 256)) (n i : Nat) (hi : i < n) :
    (expectedUpdate dmx i ∈ translateFrame dmx n ↔ i * 3 + 3 ≤ dmx.length) ∧
    (i ∈ (translateFrame dmx n).map ColorUpdate.idx ↔ i * 3 + 3 ≤ dmx.length) ∧
    (translateFrame dmx n).length ≤ n := by
  refine ⟨?_, ?_, ?_⟩
  · rw [mem_translate]
    constructor
    · rintro ⟨-, hc, -⟩
      exact hc
    · intro hc
      exact ⟨hi, hc, rfl⟩
  · rw [List.mem_map]
    constructor
    · rintro ⟨u, hu, hui⟩
      rw [mem_translate] at hu
      rw [← hui]
      exact hu.2.1
    · intro hc
      exact ⟨expectedUpdate dmx i, (mem_translate dmx n _).mpr ⟨hi, hc, rfl⟩, rfl⟩
  · unfold translateFrame
    calc ((List.range n).filterMap _).length
        ≤ (List.range n).length := List.length_filterMap_le _ _
      _ = n := List.length_range n

/-- Witness for C3 at the concrete five-byte frame `[255,0,0, 0,255]` with
two configured lights and slot index 1 (whose block is incomplete). -/
theorem translate_short_frame_witness :
    (expectedUpdate demoShortFrame 1 ∈ translateFrame demoShortFrame 2 ↔
      1 * 3 + 3 ≤ demoShortFrame.length) ∧
    (1 ∈ (translateFrame demoShortFrame 2).map ColorUpdate.idx ↔
      1 * 3 + 3 ≤ demoShortFrame.length) ∧
    (translateFrame demoShortFrame 2).length ≤ 2 :=
  translate_short_frame demoShortFrame 2 1 (by decide)

/- ------------------------------------------------------------------ -/
/- Theorems about the pairing loop.                                    -/
/- ------------------------------------------------------------------ -/

theorem processAttempt_t (st : PairState) (a : PairAttempt) :
    (processAttempt st a).t = st.t := by
  cases a <;> rfl

theorem processAttempt_printed_inv (st : PairState) (a : PairAttempt)
    (h : st.printed.all notButtonMsg = true) :
    (processAttempt st a).printed.all notButtonMsg = true := by
  cases a with
  | error desc =>
    simp only [processAttempt]
    by_cases hc : strContains (pyLower desc) buttonNotPressedMsg = true
    · rw [if_pos hc]
      exact h
    · rw [if_neg hc, List.all_append, h, Bool.true_and, List.all_cons, List.all_nil,
        Bool.and_true, notButtonMsg]
      rw [Bool.not_eq_true] at hc
      rw [hc]
      rfl
  | requestException m => exact h
  | success ou oc => exact h
  | malformed => exact h

theorem pairLoop_fuel_stable (responses : Nat → PairAttempt) (reqTime : Nat → Nat)
    (deadline : Nat) :
    ∀ fuel k st, deadline ≤ st.t + 2 * fuel →
      pairLoop responses reqTime deadline (fuel + 1) k st =
        pairLoop responses reqTime deadline fuel k st := by
  intro fuel
  induction fuel with
  | zero =>
    intro k st hI
    have ht : ¬ st.t < deadline := by omega
    simp only [pairLoop, if_neg ht]
  | succ fuel ih =>
    intro k st hI
    by_cases ht : st.t < deadline
    · cases hr : responses k with
      | success ou oc =>
        cases ou with
        | none =>
          simp only [pairLoop, hr, if_pos ht]
          exact ih _ _ (by show deadline ≤ st.t + reqTime k + 2 + 2 * fuel; omega)
        | some su =>
          cases oc with
          | none =>
            simp only [pairLoop, hr, if_pos ht]
            exact ih _ _ (by show deadline ≤ st.t + reqTime k + 2 + 2 * fuel; omega)
          | some sc =>
            simp only [pairLoop, hr, if_pos ht]
            by_cases hcond : su ≠ "" ∧ sc ≠ ""
            · rw [if_pos hcond, if_pos hcond]
            · rw [if_neg hcond, if_neg hcond]
              exact ih _ _ (by show deadline ≤ st.t + reqTime k + 2 + 2 * fuel; omega)
      | error d =>
        simp only [pairLoop, hr, if_pos ht]
        exact ih _ _ (by show deadline ≤ st.t + reqTime k + 2 + 2 * fuel; omega)
      | requestException m =>
        simp only [pairLoop, hr, if_pos ht]
        exact ih _ _ (by show deadline ≤ st.t + reqTime k + 2 + 2 * fuel; omega)
      | malformed =>
        simp only [pairLoop, hr, if_pos ht]
        exact ih _ _ (by show deadline ≤ st.t + reqTime k + 2 + 2 * fuel; omega)
    · simp only [pairLoop, if_neg ht]

theorem pairLoop_success_nonempty (responses : Nat → PairAttempt) (reqTime : Nat → Nat)
    (deadline : Nat) :
    ∀ fuel k st u c st2,
      pairLoop responses reqTime deadline fuel k st = .success u c st2 →
      u ≠ "" ∧ c ≠ "" := by
  intro fuel
  induction fuel with
  | zero =>
    intro k st u c st2 h
    simp only [pairLoop] at h
    exact PairOutcome.noConfusion h
  | succ fuel ih =>
    intro k st u c st2 h
    by_cases ht : st.t < deadline
    · cases hr : responses k with
      | success ou oc =>
        cases ou with
        | none =>
          simp only [pairLoop, hr, if_pos ht] at h
          exact ih _ _ _ _ _ h
        | some su =>
          cases oc with
          | none =>
            simp only [pairLoop, hr, if_pos ht] at h
            exact ih _ _ _ _ _ h
          | some sc =>
            simp only [pairLoop, hr, if_pos ht] at h
            by_cases hcond : su ≠ "" ∧ sc ≠ ""
            · rw [if_pos hcond] at h
              cases h
              exact hcond
            · rw [if_neg hcond] at h
              exact ih _ _ _ _ _ h
      | error d =>
        simp only [pairLoop, hr, if_pos ht] at h
        exact ih _ _ _ _ _ h
      | requestException m =>
        simp only [pairLoop, hr, if_pos ht] at h
        exact ih _ _ _ _ _ h
      | malformed =>
        simp only [pairLoop, hr, if_pos ht] at h
        exact ih _ _ _ _ _ h
    · simp only [pairLoop, if_neg ht] at h
      exact PairOutcome.noConfusion h

theorem pairLoop_timeout_ge (responses : Nat → PairAttempt) (reqTime : Nat → Nat)
    (deadline : Nat) :
    ∀ fuel k st, deadline ≤ st.t + 2 * fuel →
      isTimeoutOutcome (pairLoop responses reqTime deadline fuel k st) = true →
      deadline ≤ outcomeTime (pairLoop responses reqTime deadline fuel k st) := by
  intro fuel
  induction fuel with
  | zero =>
    intro k st hI _
    simp only [pairLoop, outcomeTime]
    omega
  | succ fuel ih =>
    intro k st hI htm
    by_cases ht : st.t < deadline
    · cases hr : responses k with
      | success ou oc =>
        cases ou with
        | none =>
          simp only [pairLoop, hr, if_pos ht] at htm ⊢
          exact ih _ _ (by show deadline ≤ st.t + reqTime k + 2 + 2 * fuel; omega) htm
        | some su =>
          cases oc with
          | none =>
            simp only [pairLoop, hr, if_pos ht] at htm ⊢
            exact ih _ _ (by show deadline ≤ st.t + reqTime k + 2 + 2 * fuel; omega) htm
          | some sc =>
            simp only [pairLoop, hr, if_pos ht] at htm ⊢
            by_cases hcond : su ≠ "" ∧ sc ≠ ""
            · rw [if_pos hcond] at htm
              exact absurd htm (by simp [isTimeoutOutcome])
            · rw [if_neg hcond] at htm ⊢
              exact ih _ _ (by show deadline ≤ st.t + reqTime k + 2 + 2 * fuel; omega) htm
      | error d =>
        simp only [pairLoop, hr, if_pos ht] at htm ⊢
        exact ih _ _ (by show deadline ≤ st.t + reqTime k + 2 + 2 * fuel; omega) htm
      | requestException m =>
        simp only [pairLoop, hr, if_pos ht] at htm ⊢
        exact ih _ _ (by show deadline ≤ st.t + reqTime k + 2 + 2 * fuel; omega) htm
      | malformed =>
        simp only [pairLoop, hr, if_pos ht] at htm ⊢
        exact ih _ _ (by show deadline ≤ st.t + reqTime k + 2 + 2 * fuel; omega) htm
    · simp only [pairLoop, if_neg ht, outcomeTime]
      omega

theorem pairLoop_all_errors_timeout (responses : Nat → PairAttempt) (reqTime : Nat → Nat)
    (deadline : Nat) (hresp : ∀ j, ∃ d, responses j = .error d) :
    ∀ fuel k st,
      isTimeoutOutcome (pairLoop responses reqTime deadline fuel k st) = true := by
  intro fuel
  induction fuel with
  | zero =>
    intro k st
    simp only [pairLoop, isTimeoutOutcome]
  | succ fuel ih =>
    intro k st
    by_cases ht : st.t < deadline
    · obtain ⟨d, hd⟩ := hresp k
      simp only [pairLoop, hd, if_pos ht]
      exact ih _ _
    · simp only [pairLoop, if_neg ht, isTimeoutOutcome]

theorem pairLoop_printed_inv (responses : Nat → PairAttempt) (reqTime : Nat → Nat)
    (deadline : Nat) :
    ∀ fuel k st, st.printed.all notButtonMsg = true →
      (printedOf (pairLoop responses reqTime deadline fuel k st)).all notButtonMsg = true := by
  intro fuel
  induction fuel with
  | zero =>
    intro k st h
    exact h
  | succ fuel ih =>
    intro k st h
    by_cases ht : st.t < deadline
    · cases hr : responses k with
      | success ou oc =>
        cases ou with
        | none =>
          simp only [pairLoop, hr, if_pos ht]
          exact ih _ _ (processAttempt_printed_inv _ _ h)
        | some su =>
          cases oc with
          | none =>
            simp only [pairLoop, hr, if_pos ht]
            exact ih _ _ (processAttempt_printed_inv _ _ h)
          | some sc =>
            simp only [pairLoop, hr, if_pos ht]
            by_cases hcond : su ≠ "" ∧ sc ≠ ""
            · rw [if_pos hcond]
              exact h
            · rw [if_neg hcond]
              exact ih _ _ (processAttempt_printed_inv _ _ h)
      | error d =>
        simp only [pairLoop, hr, if_pos ht]
        exact ih _ _ (processAttempt_printed_inv _ _ h)
      | requestException m =>
        simp only [pairLoop, hr, if_pos ht]
        exact ih _ _ (processAttempt_printed_inv _ _ h)
      | malformed =>
        simp only [pairLoop, hr, if_pos ht]
        exact ih _ _ (processAttempt_printed_inv _ _ h)
    · simp only [pairLoop, if_neg ht]
      exact h

/-- C4: if every pairing attempt receives a "link button not pressed"
response, `create_entertainment_user` ends in the timeout `RuntimeError`
after - and not before - the fixed 30-second window elapses (the raise
happens at a wall-clock time at least `start + 30`); and the function
never returns a credential pair in which either field is empty: whichever
bridge behaviour, request timing and start time a successful run has, both
the access token and the client key it returns are non-empty. -/
theorem pairing_button_never_pressed (responses : Nat → PairAttempt)
    (reqTime : Nat → Nat) (start : Nat)
    (responses2 : Nat → PairAttempt) (reqTime2 : Nat → Nat) (start2 : Nat)
    (u c : String) (st2 : PairState)
    (hresp : ∀ k, ∃ d, responses k = .error d ∧
      strContains (pyLower d) buttonNotPressedMsg = true) :
    isTimeoutOutcome (create_entertainment_user responses reqTime start) = true ∧
    start + 30 ≤ outcomeTime (create_entertainment_user responses reqTime start) ∧
    (create_entertainment_user responses2 reqTime2 start2 =
        .success u c st2 → u ≠ "" ∧ c ≠ "") := by
  have h1 : isTimeoutOutcome (create_entertainment_user responses reqTime start) = true := by
    unfold create_entertainment_user
    apply pairLoop_all_errors_timeout
    intro j
    obtain ⟨d, hd, -⟩ := hresp j
    exact ⟨d, hd⟩
  refine ⟨h1, ?_, ?_⟩
  · unfold create_entertainment_user at h1 ⊢
    exact pairLoop_timeout_ge responses reqTime (start + 30) 30 0 _
      (by show start + 30 ≤ start + 2 * 30; omega) h1
  · intro h
    exact pairLoop_success_nonempty responses2 reqTime2 (start2 + 30) 30 0 _ u c st2 h

/-- Witness for C4: a bridge that always answers "link button not pressed"
with instantaneous requests starting at time 0, and a bridge that pairs
successfully on the first attempt with non-empty credentials. -/
theorem pairing_button_never_pressed_witness :
    isTimeoutOutcome (create_entertainment_user
      (fun _ => .error "link button not pressed") (fun _ => 0) 0) = true ∧
    0 + 30 ≤ outcomeTime (create_entertainment_user
      (fun _ => .error "link button not pressed") (fun _ => 0) 0) ∧
    (create_entertainment_user (fun _ => .success (some "user1") (some "key1"))
        (fun _ => 0) 0 =
      .success "user1" "key1" { t := 0, lastErr := none, printed := [] } →
      "user1" ≠ "" ∧ "key1" ≠ "") :=
  pairing_button_never_pressed (fun _ => .error "link button not pressed") (fun _ => 0) 0
    (fun _ => .success (some "user1") (some "key1")) (fun _ => 0) 0
    "user1" "key1" { t := 0, lastErr := none, printed := [] }
    (fun _ => ⟨"link button not pressed", rfl, rfl⟩)

/-- C5 (amended): during the pairing loop a "link button not pressed"
response is never printed as a per-attempt error (no printed description
mentions the link button), while every error response - the
button-not-pressed one included - is recorded into `last_err`; on timeout
the error reported alongside the failure is the most recently recorded
error of any kind, which can be the button-not-pressed message itself, as
the concrete run of `cexResponses` shows. -/
theorem pairing_error_surfacing (responses : Nat → PairAttempt)
    (reqTime : Nat → Nat) (start : Nat) (st : PairState) (d : String) :
    (printedOf (create_entertainment_user responses reqTime start)).all
      notButtonMsg = true ∧
    (processAttempt st (.error d)).lastErr = some d ∧
    reportedLastError (create_entertainment_user cexResponses (fun _ => 0) 0) =
      some "link button not pressed" := by
  refine ⟨?_, rfl, rfl⟩
  unfold create_entertainment_user
  exact pairLoop_printed_inv responses reqTime (start + 30) 30 0 _ rfl

/-- C5 counterexample: against a bridge whose first response is the
distinct error "unauthorized user" and whose later responses are all
"link button not pressed", the timeout banner reports the
button-not-pressed message (the last error of any kind), not the last
non-button-press error "unauthorized user" - which was indeed recorded,
being the only per-attempt printed error. -/
theorem pairing_last_error_cex :
    reportedLastError (create_entertainment_user cexResponses (fun _ => 0) 0) =
      some "link button not pressed" ∧
    printedOf (create_entertainment_user cexResponses (fun _ => 0) 0) =
      ["unauthorized user"] ∧
    ("link button not pressed" : String) ≠ "unauthorized user" :=
  ⟨rfl, rfl, by decide⟩

/- ------------------------------------------------------------------ -/
/- Theorems about area resolution.                                     -/
/- ------------------------------------------------------------------ -/

/-- C1 (the code diverges here): the selection loop compares only the
catalog key (the area id, both duplicated branches), never the display
name, so for the catalog entry whose display name is "Living Room" the
query "living room" is rejected with the not-found error - contrary to
the claim (and to the loop's own comment "Find the selected area by name
or ID").  The proper leading substring "Liv" is rejected as well, as the
claim states. -/
theorem resolveArea_ignores_display_name :
    (livingRoomEntry.2).name = "Living Room" ∧
    resolveArea [livingRoomEntry] "living room" = .error (.notFound "living room") ∧
    resolveArea [livingRoomEntry] "Liv" = .error (.notFound "Liv") :=
  ⟨rfl, rfl, rfl⟩

/-- C6 counterexample: in the area-selection path the empty catalog
produces exactly the same error value as a non-empty catalog in which
nothing matches - `resolveArea` reports both as the not-found error whose
message depends only on the requested name, so the two conditions are not
reported distinctly there. -/
theorem empty_catalog_not_distinct :
    resolveArea [] "Living Room" = .error (.notFound "Living Room") ∧
    resolveArea [officeEntry] "Living Room" = .error (.notFound "Living Room") ∧
    resolveArea [] "Living Room" = resolveArea [officeEntry] "Living Room" :=
  ⟨rfl, rfl, rfl⟩

/-- C6 (amended): the area-selection path reports an empty catalog with
the same not-found error as a non-matching name; only the listing branch
of `main` reports the empty catalog distinctly, exiting with code 6
("No entertainment areas found!") where a non-empty catalog exits 0. -/
theorem area_selection_empty_catalog (requested : String) :
    resolveArea [] requested = .error (.notFound requested) ∧
    listAreasExit [] = 6 ∧
    listAreasExit [officeEntry] = 0 :=
  ⟨rfl, rfl, rfl⟩

/- ------------------------------------------------------------------ -/
/- Theorems about credential resolution, teardown and bridge info.     -/
/- ------------------------------------------------------------------ -/

/-- C7: whenever the stored configuration holds a truthy access token but
no truthy client key and re-pairing is not forced, `ensure_app_key` fails
with the missing-clientkey error that directs the operator to re-pair,
performs zero pairing attempts, and its result does not depend on what a
pairing attempt would have produced (the `pairResult` collaborator is
arbitrary), so no new client key can be generated. -/
theorem ensure_missing_clientkey (pairResult : PairOutcome) (now : String)
    (app_key : Option String) (cfg : Config)
    (htok : truthy cfg.app_key = true) (hck : truthy cfg.clientkey = false) :
    ensure_app_key pairResult now app_key cfg false = (.error .missingClientkey, 0) := by
  have hu : truthy (pyOr app_key cfg.app_key) = true := by
    unfold pyOr
    by_cases ha : truthy app_key = true
    · rw [if_pos ha]
      exact ha
    · rw [if_neg ha]
      exact htok
  have hnck : ¬ truthy cfg.clientkey = true := by
    rw [hck]
    exact Bool.false_ne_true
  simp only [ensure_app_key, Bool.false_eq_true, if_false]
  rw [if_neg (fun hand => hnck hand.2), if_pos ⟨hu, hnck⟩]

/-- Witness for C7: a configuration with a stored token and no client key,
against an arbitrary (timed-out) pairing collaborator. -/
theorem ensure_missing_clientkey_witness :
    truthy (Config.mk (some "user1") none none none).app_key = true ∧
    truthy (Config.mk (some "user1") none none none).clientkey = false ∧
    ensure_app_key (.timeoutError { t := 0, lastErr := none, printed := [] }) "now"
      none (Config.mk (some "user1") none none none) false =
      (.error .missingClientkey, 0) :=
  ⟨rfl, rfl,
    ensure_missing_clientkey (.timeoutError { t := 0, lastErr := none, printed := [] })
      "now" none (Config.mk (some "user1") none none none) rfl rfl⟩

/-- C10: with a command-line access token supplied, re-pairing not forced
and a stored client key present, `ensure_app_key` returns the command-line
token paired with the stored client key - for every independent choice of
the two strings, so nothing checks that they were created together - with
zero pairing attempts and the configuration unchanged. -/
theorem ensure_cli_key (pairResult : PairOutcome) (now : String) (cli ck : String)
    (cfg : Config) (hcfg : cfg.clientkey = some ck) (hcli : cli ≠ "") (hck : ck ≠ "") :
    ensure_app_key pairResult now (some cli) cfg false = (.ok (cli, ck, cfg), 0) := by
  have htc : truthy (some cli) = true := decide_eq_true hcli
  have hu : pyOr (some cli) cfg.app_key = some cli := by
    unfold pyOr
    rw [if_pos htc]
  have htk : truthy cfg.clientkey = true := by
    rw [hcfg]
    exact decide_eq_true hck
  simp only [ensure_app_key, Bool.false_eq_true, if_false]
  rw [hu, if_pos ⟨htc, htk⟩, hcfg]
  rfl

/-- Witness for C10: the command-line token "cli-token" is returned with
the stored client key "stored-key" although the stored token is the
unrelated "stored-user". -/
theorem ensure_cli_key_witness :
    (Config.mk (some "stored-user") (some "stored-key") none none).clientkey =
      some "stored-key" ∧
    ensure_app_key (.timeoutError { t := 0, lastErr := none, printed := [] }) "now"
      (some "cli-token") (Config.mk (some "stored-user") (some "stored-key") none none)
      false =
      (.ok ("cli-token", "stored-key",
        Config.mk (some "stored-user") (some "stored-key") none none), 0) :=
  ⟨rfl,
    ensure_cli_key (.timeoutError { t := 0, lastErr := none, printed := [] }) "now"
      "cli-token" "stored-key"
      (Config.mk (some "stored-user") (some "stored-key") none none)
      rfl (by decide) (by decide)⟩

/-- C8: stopping the streaming session never propagates a failure of the
underlying teardown call: for every behaviour of `stop_stream()` the
method returns normally (`Except.ok`), and when the underlying call raises
the failure is logged rather than re-raised. -/
theorem stop_streaming_never_raises (u : Except String Unit) (e : String) :
    (stop_streaming u).isOk = true ∧
    stop_streaming (.error e) =
      .ok (.errorLogged ("Error stopping streaming: " ++ e)) := by
  refine ⟨?_, rfl⟩
  cases u <;> rfl

/-- C9: `get_bridge_info` is total and silently degrading: for every
outcome of the underlying query it returns a record whose software-version
tag is the constant 1962097030 (no queried field influences it), and on an
exception it returns the fixed fallback record with placeholder
identifiers. -/
theorem get_bridge_info_total (q : Except String (Option (List BridgeData)))
    (e : String) :
    (get_bridge_info q).swversion = 1962097030 ∧
    get_bridge_info (.error e) =
      { id := some "default-bridge-id", rid := some "default-bridge-rid",
        name := "Hue Bridge", swversion := 1962097030,
        hue_app_id := some "default-app-id" } := by
  refine ⟨?_, rfl⟩
  cases q with
  | error s => rfl
  | ok o =>
    cases o with
    | none => rfl
    | some l =>
      cases l with
      | nil => rfl
      | cons b rest => rfl
